import Mathlib

/-!
Verification of the bounded-concurrency task queue implemented in
src/utils/task_queue.ts (class TaskQueue, helper TaskRunner and the
convenience function runTaskQueue).

The TypeScript scheduler runs on a single-threaded event loop: every
method body executes atomically up to the next suspension point, and the
only suspension point is the await on the TaskRunner promise inside
runTask.  We embed the scheduler as a state machine whose atomic steps
are exactly those uninterrupted code blocks:

* runTaskSync      - the synchronous prefix of runTask(index): pop the
                     pending queue, and either perform the drain check
                     (empty queue) or bind the slot, bump the attempt
                     counter and start a TaskRunner flight, stopping at
                     the await;
* settleFlight     - the task's own promise settles (success or failure
                     chosen by the task's behaviour for that attempt);
* stop             - AbortController.abort(): every armed, not yet
                     settled flight is rejected with AbortError;
* runCont          - the continuation of runTask after the await: the
                     success / error / abort handling and the tail
                     recursive re-dispatch, atomically up to the next
                     await.

A flight is "armed" when the abort listener was registered on a signal
that had not yet been aborted; TaskRunner.run adds its abort listener
unconditionally, and a listener added to an already aborted signal never
fires, so a flight started after stop() can never be aborted.

User tasks are opaque callables; we model a task by its observable
behaviour: the outcome (success, or failure with an error value) of its
k-th invocation.  Error values are opaque and modelled as naturals.
Event listeners registered on the queue run synchronously inside
dispatchEvent; their re-entrant effect on the scheduler is the `act`
parameter of runCont (the identity for observers that do not call back
into the queue).

Ghost fields (events, startLog, nextTid) record the observable history:
dispatched events, the admission id of each execution start, and the
next admission id.  They are write-only and never influence control
flow.
-/

namespace TaskQueueSpec

/-- Error values thrown by tasks; opaque in the source, modelled as naturals. -/
abbrev ErrVal := Nat

/-- Outcome of one invocation of a user task: the promise returned by
task() either fulfills or rejects with an error value. -/
inductive TaskOutcome where
  | success : TaskOutcome
  | failure : ErrVal → TaskOutcome
deriving DecidableEq, Repr

/-- TaskType from task_queue.ts: a zero-argument callable.  We model it by
its observable behaviour: the outcome of its k-th invocation (JS closures
may close over mutable state, e.g. the fails-once-then-succeeds test task,
so the outcome may depend on the invocation count). -/
structure TaskType where
  beh : Nat → TaskOutcome

/-- QueuedTask from task_queue.ts: the task plus mutable bookkeeping.
tid is a ghost identity (the admission index) used to state per-task
properties; it does not exist in the source and influences nothing. -/
structure QueuedTask where
  tid : Nat
  task : TaskType
  attempts : Nat
  failures : List ErrVal

/-- Result of the TaskRunner promise for one execution. -/
inductive RunnerResult where
  | ok : RunnerResult
  | err : ErrVal → RunnerResult
  | aborted : RunnerResult
deriving DecidableEq, Repr

/-- One in-flight runTask frame suspended at the await on its TaskRunner
promise.  armed records whether the abort listener was registered before
the signal was aborted (a listener added to an already aborted signal
never fires).  settled = some r means the runner promise has settled with
r but the awaiting continuation has not yet run. -/
structure Flight where
  worker : Nat
  qt : QueuedTask
  armed : Bool
  settled : Option RunnerResult

/-- Events dispatched by the queue (ghost log of the notification
channel): TaskCompletedEvent, TaskQueueErrorEvent with its error, and
TaskQueueCompletedEvent (the all_workers_idle event) with its metrics
payload. -/
inductive EmittedEvent where
  | taskCompleted : EmittedEvent
  | taskError : ErrVal → EmittedEvent
  | allWorkersIdle : Nat → Nat → Nat → EmittedEvent
deriving DecidableEq, Repr

/-- The fields of a TaskQueue instance, plus the in-flight runTask frames
(held by the event loop in the source) and the ghost history fields. -/
structure QState where
  tasks : List QueuedTask
  totalUniqueTasksAdded : Nat
  completeTasks : List QueuedTask
  failedTasks : List (QueuedTask × ErrVal)
  totalWorkers : Nat
  workers : List (Option QueuedTask)
  retries : Nat
  aborted : Bool
  flights : List Flight
  events : List EmittedEvent
  nextTid : Nat
  startLog : List Nat

/-- Getter pendingTasks. -/
def pendingTasks (s : QState) : Nat := s.tasks.length

/-- Getter completedTasks. -/
def completedTasks (s : QState) : Nat := s.completeTasks.length

/-- Getter failedTasksCount (the failedTasks getter of the source). -/
def failedTasksCount (s : QState) : Nat := s.failedTasks.length

/-- Getter totalTasks. -/
def totalTasks (s : QState) : Nat := s.totalUniqueTasksAdded

/-- allWorkersIdle(): every slot of the workers table is null. -/
def allWorkersIdle (s : QState) : Bool := s.workers.all Option.isNone

/-- sendAllDone(): dispatch a TaskQueueCompletedEvent carrying the
current lengths of the histories and the unique-task counter.  In the
source this goes through dispatchEvent, whose listeners run
synchronously; the model records the dispatch in the ghost log and
treats the drained-event listeners as passive observers (no re-entrant
effect on the scheduler).  Every statement below that counts drained
notifications is therefore about runs whose drained-event observers do
not call back into the queue - a re-entrant drained listener (e.g. one
calling startExecution again) could change any such count. -/
def sendAllDone (s : QState) : QState :=
  { s with events := s.events ++
      [EmittedEvent.allWorkersIdle s.completeTasks.length s.failedTasks.length
        s.totalUniqueTasksAdded] }

/-- setWorkerFinished(index): null the slot. -/
def setWorkerFinished (s : QState) (i : Nat) : QState :=
  { s with workers := s.workers.set i none }

/-- addTask(task): bump totalUniqueTasksAdded and append a fresh
QueuedTask (attempts 0, no failures) to the back of the pending queue. -/
def addTask (s : QState) (t : TaskType) : QState :=
  { s with totalUniqueTasksAdded := s.totalUniqueTasksAdded + 1,
           tasks := s.tasks ++ [⟨s.nextTid, t, 0, []⟩],
           nextTid := s.nextTid + 1 }

/-- addTasks(tasks): admit each task in order. -/
def addTasks (s : QState) (ts : List TaskType) : QState :=
  ts.foldl addTask s

/-- dispatchEvent: append the event to the ghost log, then run the
registered listeners; act is their re-entrant effect on the scheduler
(the identity when no listener calls back into the queue). -/
def dispatchEvent (s : QState) (ev : EmittedEvent) (act : QState → QState) : QState :=
  act { s with events := s.events ++ [ev] }

/-- Synchronous prefix of runTask(index), up to the await on the
TaskRunner promise: getNextTask (Array.shift, the front of the queue);
if there is no task, perform the drain check; otherwise bind the record
to the slot (overwriting whatever was there), increment its attempts and
start the flight.  The flight is armed exactly when the abort signal has
not yet been raised, because TaskRunner.run registers its abort listener
unconditionally and listeners added to an already aborted signal never
fire. -/
def runTaskSync (s : QState) (i : Nat) : QState :=
  match s.tasks with
  | [] => if allWorkersIdle s then sendAllDone s else s
  | q :: rest =>
    let q2 : QueuedTask := { q with attempts := q.attempts + 1 }
    { s with tasks := rest,
             workers := s.workers.set i (some q2),
             flights := s.flights ++ [⟨i, q2, !s.aborted, none⟩],
             startLog := s.startLog ++ [q.tid] }

/-- stop(): AbortController.abort().  The signal becomes aborted and
every armed flight whose runner promise has not yet settled is rejected
with AbortError, synchronously. -/
def stop (s : QState) : QState :=
  { s with aborted := true,
           flights := s.flights.map (fun f =>
             if f.armed && f.settled.isNone then
               { f with settled := some RunnerResult.aborted }
             else f) }

/-- The task's own promise settles: if the runner promise is still
pending, it settles with the outcome of the task's behaviour at the
current attempt number; if it already settled (e.g. by abortion), the
late fulfillment is ignored. -/
def settleFlight (f : Flight) : Flight :=
  match f.settled with
  | some _ => f
  | none =>
    { f with settled := some (match f.qt.task.beh f.qt.attempts with
        | TaskOutcome.success => RunnerResult.ok
        | TaskOutcome.failure e => RunnerResult.err e) }

/-- Continuation of runTask after the await, for the j-th flight, running
atomically up to the next await: push to the success or failure history,
dispatch the corresponding event (act is the re-entrant effect of its
listeners), apply the retry policy, free the slot and re-dispatch via
the tail call runTask(index) - or, for an aborted flight, free the slot,
perform the drain check and return without re-dispatching. -/
def runCont (s : QState) (j : Nat) (act : QState → QState) : QState :=
  match s.flights[j]? with
  | none => s
  | some f =>
    match f.settled with
    | none => s
    | some RunnerResult.ok =>
      let s1 : QState := { s with flights := s.flights.eraseIdx j,
                                  completeTasks := s.completeTasks ++ [f.qt] }
      let s2 := dispatchEvent s1 EmittedEvent.taskCompleted act
      runTaskSync (setWorkerFinished s2 f.worker) f.worker
    | some (RunnerResult.err e) =>
      let q2 : QueuedTask := { f.qt with failures := f.qt.failures ++ [e] }
      let s1 : QState := { s with flights := s.flights.eraseIdx j,
                                  failedTasks := s.failedTasks ++ [(q2, e)] }
      let s2 := dispatchEvent s1 (EmittedEvent.taskError e) act
      let s3 := if s2.retries ≠ 0 ∧ q2.attempts ≤ s2.retries then
                  { s2 with tasks := s2.tasks ++ [q2] }
                else s2
      runTaskSync (setWorkerFinished s3 f.worker) f.worker
    | some RunnerResult.aborted =>
      let s1 : QState := { s with flights := s.flights.eraseIdx j }
      let s2 := setWorkerFinished s1 f.worker
      if allWorkersIdle s2 then sendAllDone s2 else s2

/-- startExecution(): call runTask(workerId) for every worker key in
order (each call runs synchronously up to its await), then, if every
slot is idle, dispatch the all-done event. -/
def startExecution (s : QState) : QState :=
  let s2 := (List.range s.totalWorkers).foldl (fun t i => runTaskSync t i) s
  if allWorkersIdle s2 then sendAllDone s2 else s2

/-- clearQueue(): throw if any worker slot is bound (nothing mutated
before the throw), otherwise reset the pending queue, the unique-task
counter and both histories. -/
def clearQueue (s : QState) : Except String QState :=
  if allWorkersIdle s then
    Except.ok { s with tasks := [], totalUniqueTasksAdded := 0,
                       completeTasks := [], failedTasks := [] }
  else
    Except.error "Cannot clear the queue while tasks are running"

/-- Math.trunc for the values that reach it in the constructor (all
guarded by totalWorkers > 0): truncation toward zero, the floor on
nonnegative numbers. -/
def mathTrunc (q : ℚ) : Int :=
  if 0 ≤ q then q.floor else q.ceil

/-- TaskQueueConstructorInput: all fields optional.  JS numbers reaching
the totalWorkers check in the claims are finite and modelled as
rationals. -/
structure TaskQueueConstructorInput where
  totalWorkers : Option ℚ := none
  tasks : Option (List TaskType) := none
  retries : Option Nat := none

/-- The TaskQueue constructor: retries defaults to 0; totalWorkers keeps
the default 30 unless a value greater than 0 is supplied, in which case
it is coerced by Math.trunc; the initial tasks are admitted via
addTasks; the workers table is initialized with totalWorkers null
slots. -/
def TaskQueue.init (args : TaskQueueConstructorInput) : QState :=
  let w : Nat :=
    match args.totalWorkers with
    | some q => if 0 < q then (mathTrunc q).toNat else 30
    | none => 30
  let s0 : QState :=
    { tasks := [], totalUniqueTasksAdded := 0, completeTasks := [],
      failedTasks := [], totalWorkers := w,
      workers := List.replicate w none, retries := args.retries.getD 0,
      aborted := false, flights := [], events := [], nextTid := 0,
      startLog := [] }
  addTasks s0 (args.tasks.getD [])

/-- The TaskQueue constructed by runTaskQueue: it forwards totalWorkers
(defaulted to 30) and tasks, and does not pass retries at all. -/
def runTaskQueueInit (args : TaskQueueConstructorInput) : QState :=
  TaskQueue.init { totalWorkers := some (args.totalWorkers.getD 30),
                   tasks := args.tasks, retries := none }

/-- One deterministic event-loop round, part 1: the oldest flight's
runner promise settles with the task's own outcome.  This is the exact
schedule of every single-worker run without stop(). -/
def settleFirst (s : QState) : QState :=
  { s with flights :=
      match s.flights with
      | [] => []
      | f :: rest => settleFlight f :: rest }

/-- Composition of settleFirst with the continuation of that flight,
with listeners that do not re-enter the scheduler. -/
def stepFirst (s : QState) : QState :=
  runCont (settleFirst s) 0 (fun t => t)

/-- Drive the queue with the deterministic schedule until no flight is
in progress, with a fuel bound. -/
def runToIdle : QState → Nat → QState
  | s, 0 => s
  | s, fuel + 1 =>
    if s.flights.isEmpty then s else runToIdle (stepFirst s) fuel

/-- A task that fails on every attempt, with error value 0. -/
def failTask : TaskType := ⟨fun _ => TaskOutcome.failure 0⟩

/-- A task that succeeds on every attempt. -/
def succTask : TaskType := ⟨fun _ => TaskOutcome.success⟩

/-- A task that fails on its first invocation and succeeds afterwards. -/
def failOnceTask : TaskType :=
  ⟨fun k => if k ≤ 1 then TaskOutcome.failure 0 else TaskOutcome.success⟩

/-- Failure history of the always-failing task after n failed attempts. -/
def c1Fails : Nat → List ErrVal
  | 0 => []
  | n + 1 => c1Fails n ++ [0]

/-- Failed-attempt history after n failed attempts: the attempt k record
carries attempts = k and its first k failures. -/
def c1FailedHist : Nat → List (QueuedTask × ErrVal)
  | 0 => []
  | n + 1 => c1FailedHist n ++ [(⟨0, failTask, n + 1, c1Fails (n + 1)⟩, 0)]

/-- Task-error events dispatched after n failed attempts. -/
def c1EventHist : Nat → List EmittedEvent
  | 0 => []
  | n + 1 => c1EventHist n ++ [EmittedEvent.taskError 0]

/-- Execution-start log after n starts of the unique task (id 0). -/
def c1Log : Nat → List Nat
  | 0 => []
  | n + 1 => c1Log n ++ [0]

/-- The C1 scenario: a 1-worker queue holding one always-failing task
with retry budget R, started. -/
def c1Queue (R : Nat) : QState :=
  startExecution (TaskQueue.init
    { totalWorkers := some (1 : ℚ), tasks := some [failTask], retries := some R })

/-- The record of the unique C1 task while its attempt j+1 is in flight. -/
def c1Rec (j : Nat) : QueuedTask := ⟨0, failTask, j + 1, c1Fails j⟩

/-- The scheduler state of the C1 scenario while attempt j+1 is in
flight. -/
def c1Loop (R j : Nat) : QState :=
  { tasks := [], totalUniqueTasksAdded := 1, completeTasks := [],
    failedTasks := c1FailedHist j, totalWorkers := 1,
    workers := [some (c1Rec j)], retries := R, aborted := false,
    flights := [⟨0, c1Rec j, true, none⟩],
    events := c1EventHist j, nextTid := 1, startLog := c1Log (j + 1) }

/-- The drained final state of the C1 scenario. -/
def c1Final (R : Nat) : QState :=
  { tasks := [], totalUniqueTasksAdded := 1, completeTasks := [],
    failedTasks := c1FailedHist (R + 1), totalWorkers := 1,
    workers := [none], retries := R, aborted := false, flights := [],
    events := c1EventHist (R + 1) ++
      [EmittedEvent.allWorkersIdle 0 (c1FailedHist (R + 1)).length 1],
    nextTid := 1, startLog := c1Log (R + 1) }

/-- The C4 trace: a 1-worker queue with two always-succeeding tasks; the
first task is dispatched, its runner promise settles with success, and
its continuation runs with a TASK_COMPLETED listener that calls stop()
(dispatchEvent runs listeners synchronously, before the tail call
runTask(index)). -/
def c4Trace : QState :=
  runCont (settleFirst (startExecution (TaskQueue.init
    { totalWorkers := some (1 : ℚ), tasks := some [succTask, succTask] }))) 0 stop

/-- Concrete state with an aborted settled flight: a 1-worker queue with
one task, dispatched and then stopped mid-flight (used by the C5
witness). -/
def c5WitState : QState :=
  stop (startExecution (TaskQueue.init
    { totalWorkers := some (1 : ℚ), tasks := some [succTask] }))

/-- Concrete state for the C6 witness: a 1-worker queue, retries = 1,
with a failing task in flight (settled with an error) and a second task
pending. -/
def c6WitState : QState :=
  settleFirst (startExecution (TaskQueue.init
    { totalWorkers := some (1 : ℚ), tasks := some [failTask, succTask], retries := some 1 }))

/-- The C8 scenario: a 1-worker queue, retry budget 1, holding one task
that fails on its first invocation and succeeds on the retry,
started. -/
def c8Queue : QState :=
  startExecution (TaskQueue.init
    { totalWorkers := some (1 : ℚ), tasks := some [failOnceTask], retries := some 1 })

/-! Helper lemmas about the operations. -/

theorem addTask_workers (s : QState) (t : TaskType) : (addTask s t).workers = s.workers := rfl

theorem addTasks_workers (ts : List TaskType) (s : QState) :
    (addTasks s ts).workers = s.workers := by
  induction ts generalizing s with
  | nil => rfl
  | cons t ts ih => simpa [addTasks, List.foldl_cons] using ih (addTask s t)

theorem addTasks_totalWorkers (ts : List TaskType) (s : QState) :
    (addTasks s ts).totalWorkers = s.totalWorkers := by
  induction ts generalizing s with
  | nil => rfl
  | cons t ts ih => simpa [addTasks, List.foldl_cons] using ih (addTask s t)

theorem addTasks_retries (ts : List TaskType) (s : QState) :
    (addTasks s ts).retries = s.retries := by
  induction ts generalizing s with
  | nil => rfl
  | cons t ts ih => simpa [addTasks, List.foldl_cons] using ih (addTask s t)

/-- runTaskSync on an empty pending queue with every slot idle: it only
dispatches one all-done event. -/
theorem runTaskSync_empty_idle (s : QState) (i : Nat)
    (ht : s.tasks = []) (hw : allWorkersIdle s = true) :
    runTaskSync s i = sendAllDone s := by
  unfold runTaskSync
  rw [ht, hw]
  simp

/-- runTaskSync on an empty pending queue with a bound slot: no effect. -/
theorem runTaskSync_empty_busy (s : QState) (i : Nat)
    (ht : s.tasks = []) (hw : allWorkersIdle s = false) :
    runTaskSync s i = s := by
  unfold runTaskSync
  rw [ht, hw]
  simp

/-- Iterating runTaskSync over any index list, starting from an idle
state with nothing pending, appends one all-done event per index. -/
theorem foldl_runTaskSync_empty_idle (l : List Nat) (s : QState)
    (ht : s.tasks = []) (hw : allWorkersIdle s = true) :
    l.foldl (fun t i => runTaskSync t i) s =
      { s with events := s.events ++ (List.replicate l.length
          (EmittedEvent.allWorkersIdle s.completeTasks.length s.failedTasks.length
            s.totalUniqueTasksAdded)) } := by
  induction l generalizing s with
  | nil => simp
  | cons i l ih =>
    rw [List.foldl_cons, runTaskSync_empty_idle s i ht hw]
    rw [ih (sendAllDone s) (by simpa [sendAllDone] using ht)
      (by simpa [sendAllDone, allWorkersIdle] using hw)]
    simp [sendAllDone, List.replicate_succ]

/-- Iterating runTaskSync over any index list, starting from a busy
state with nothing pending, is a no-op. -/
theorem foldl_runTaskSync_empty_busy (l : List Nat) (s : QState)
    (ht : s.tasks = []) (hw : allWorkersIdle s = false) :
    l.foldl (fun t i => runTaskSync t i) s = s := by
  induction l generalizing s with
  | nil => rfl
  | cons i l ih =>
    rw [List.foldl_cons, runTaskSync_empty_busy s i ht hw]
    exact ih s ht hw

theorem runToIdle_succ_busy (s : QState) (fuel : Nat) (h : s.flights.isEmpty = false) :
    runToIdle s (fuel + 1) = runToIdle (stepFirst s) fuel := by
  show (if s.flights.isEmpty = true then s else runToIdle (stepFirst s) fuel) =
    runToIdle (stepFirst s) fuel
  simp [h]

/-! Claim C1: retry budget exhausted by an always-failing task. -/

theorem c1Fails_length (n : Nat) : (c1Fails n).length = n := by
  induction n with
  | zero => rfl
  | succ n ih => simp [c1Fails, ih]

theorem c1FailedHist_length (n : Nat) : (c1FailedHist n).length = n := by
  induction n with
  | zero => rfl
  | succ n ih => simp [c1FailedHist, ih]

theorem c1Log_eq_replicate (n : Nat) : c1Log n = List.replicate n 0 := by
  induction n with
  | zero => rfl
  | succ n ih => simp [c1Log, ih, List.replicate_succ']

theorem c1EventHist_eq_replicate (n : Nat) :
    c1EventHist n = List.replicate n (EmittedEvent.taskError 0) := by
  induction n with
  | zero => rfl
  | succ n ih => simp [c1EventHist, ih, List.replicate_succ']

theorem c1Queue_eq_loop (R : Nat) : c1Queue R = c1Loop R 0 := rfl

/-- One event-loop round while budget remains: attempt j+1 fails,
is recorded, re-appended and immediately re-dispatched as attempt
j+2. -/
theorem c1_step_loop (R j : Nat) (h : j < R) :
    stepFirst (c1Loop R j) = c1Loop R (j + 1) := by
  have hc : (R ≠ 0 ∧ j + 1 ≤ R) = True := eq_true ⟨by omega, by omega⟩
  simp [stepFirst, settleFirst, settleFlight, c1Loop, c1Rec, failTask,
    runCont, dispatchEvent, setWorkerFinished, runTaskSync, allWorkersIdle,
    List.getElem?_cons_zero, List.eraseIdx, hc,
    c1Fails, c1FailedHist, c1EventHist, c1Log]

/-- The last event-loop round: attempt R+1 fails, is recorded, not
re-appended, the slot frees and the drained notification fires. -/
theorem c1_step_final (R : Nat) :
    stepFirst (c1Loop R R) = c1Final R := by
  have hc : (R ≠ 0 ∧ R + 1 ≤ R) = False := eq_false (by omega)
  simp [stepFirst, settleFirst, settleFlight, c1Loop, c1Rec, c1Final, failTask,
    runCont, dispatchEvent, setWorkerFinished, runTaskSync, sendAllDone,
    allWorkersIdle, List.getElem?_cons_zero, List.eraseIdx, hc,
    c1Fails, c1FailedHist, c1EventHist, c1Log]

theorem c1_run (R : Nat) :
    ∀ d j, j + d = R → runToIdle (c1Loop R j) (d + 1) = c1Final R := by
  intro d
  induction d with
  | zero =>
    intro j hj
    have hjR : j = R := by omega
    subst hjR
    rw [runToIdle_succ_busy (c1Loop j j) 0 (by simp [c1Loop])]
    exact c1_step_final j
  | succ d ih =>
    intro j hj
    rw [runToIdle_succ_busy (c1Loop R j) (d + 1) (by simp [c1Loop])]
    rw [c1_step_loop R j (by omega)]
    exact ih (j + 1) (by omega)

/-- C1: with retry budget R and a task that fails on every attempt, the
run drains after starting that task exactly R+1 times (the start log
holds admission id 0 exactly R+1 times), the failed-attempt counter
grows by exactly R+1, and totalTasks counts the task once; the drained
notification carries (0, R+1, 1). -/
theorem c1_retry_budget (R : Nat) :
    (runToIdle (c1Queue R) (R + 1)).startLog = List.replicate (R + 1) 0 ∧
    failedTasksCount (runToIdle (c1Queue R) (R + 1)) = R + 1 ∧
    totalTasks (runToIdle (c1Queue R) (R + 1)) = 1 ∧
    (runToIdle (c1Queue R) (R + 1)).tasks = [] ∧
    (runToIdle (c1Queue R) (R + 1)).flights = [] ∧
    (runToIdle (c1Queue R) (R + 1)).events =
      List.replicate (R + 1) (EmittedEvent.taskError 0) ++
        [EmittedEvent.allWorkersIdle 0 (R + 1) 1] := by
  rw [c1Queue_eq_loop, c1_run R R 0 (by omega)]
  refine ⟨?_, ?_, rfl, rfl, rfl, ?_⟩
  · simp [c1Final, c1Log_eq_replicate]
  · simp [c1Final, failedTasksCount, c1FailedHist_length]
  · simp [c1Final, c1EventHist_eq_replicate, c1FailedHist_length]

/-! Claim C2: drain notifications. -/

/-- C2 counterexample.  The claim says every complete drain emits exactly
one drained notification and in particular a queue constructed with an
empty task list and started emits it exactly once.  On the code, every
runTask call of the startExecution loop finds the queue empty with all
slots idle and dispatches the all-done event, and the final check of
startExecution dispatches it once more: with 2 workers the fresh empty
queue emits the all-zero drained notification 3 times, not once. -/
theorem c2_drained_counterexample :
    (startExecution (TaskQueue.init { totalWorkers := some (2 : ℚ) })).tasks = [] ∧
    allWorkersIdle (startExecution (TaskQueue.init { totalWorkers := some (2 : ℚ) })) = true ∧
    (startExecution (TaskQueue.init { totalWorkers := some (2 : ℚ) })).events.count
      (EmittedEvent.allWorkersIdle 0 0 0) = 3 := by
  exact ⟨rfl, rfl, rfl⟩

theorem all_isNone_replicate (n : Nat) :
    (List.replicate n (none : Option QueuedTask)).all Option.isNone = true := by
  induction n with
  | zero => rfl
  | succ n ih => simp [List.replicate_succ, ih]

/-- C2 amended: calling startExecution() on a queue constructed with an
empty initial task list and no later additions dispatches the all-zero
drained notification exactly totalWorkers + 1 times - once per slot
scanned by the dispatch loop (each runTask call finds no task with
every slot idle and calls sendAllDone) plus once in startExecution's
final check - not exactly once.  Stated for every construction input
whose initial task list is absent or empty, for observers that do not
re-enter the scheduler. -/
theorem c2_drained_amended (args : TaskQueueConstructorInput)
    (ht : args.tasks.getD [] = []) :
    (startExecution (TaskQueue.init args)).events =
      List.replicate ((TaskQueue.init args).totalWorkers + 1)
        (EmittedEvent.allWorkersIdle 0 0 0) := by
  have htasks : (TaskQueue.init args).tasks = [] := by
    unfold TaskQueue.init
    rw [ht]
    rfl
  have hw : allWorkersIdle (TaskQueue.init args) = true := by
    unfold TaskQueue.init allWorkersIdle
    rw [ht]
    exact all_isNone_replicate _
  have hcomp : (TaskQueue.init args).completeTasks = [] := by
    unfold TaskQueue.init
    rw [ht]
    rfl
  have hfail : (TaskQueue.init args).failedTasks = [] := by
    unfold TaskQueue.init
    rw [ht]
    rfl
  have htot : (TaskQueue.init args).totalUniqueTasksAdded = 0 := by
    unfold TaskQueue.init
    rw [ht]
    rfl
  have hev : (TaskQueue.init args).events = [] := by
    unfold TaskQueue.init
    rw [ht]
    rfl
  unfold startExecution
  rw [foldl_runTaskSync_empty_idle _ _ htasks hw]
  rw [if_pos (by simpa [allWorkersIdle] using hw)]
  simp [sendAllDone, List.length_range, List.replicate_succ', hcomp, hfail, htot, hev]

/-- C2 witness for c2_drained_amended at a fresh 2-worker queue. -/
theorem c2_drained_amended_witness :
    (startExecution (TaskQueue.init { totalWorkers := some (2 : ℚ) })).events =
      List.replicate 3 (EmittedEvent.allWorkersIdle 0 0 0) := by
  rw [c2_drained_amended { totalWorkers := some (2 : ℚ) } rfl]
  rfl

/-! Claim C3: repeated startExecution while running. -/

/-- C3 counterexample.  The claim says a second startExecution call
never gives a bound slot a second concurrent task and never exceeds
totalWorkers simultaneous executions.  On the code, startExecution calls
runTask for every worker key and runTask pops the next pending task
without checking whether the slot is bound: with 1 worker and 2 tasks,
calling startExecution twice leaves two unsettled flights both bound to
worker 0, exceeding totalWorkers = 1. -/
theorem c3_rerun_counterexample :
    (startExecution (startExecution (TaskQueue.init
      { totalWorkers := some (1 : ℚ), tasks := some [succTask, succTask] }))).totalWorkers = 1 ∧
    (startExecution (startExecution (TaskQueue.init
      { totalWorkers := some (1 : ℚ), tasks := some [succTask, succTask] }))).flights.map
        (fun f => (f.worker, f.settled.isNone)) = [(0, true), (0, true)] := by
  exact ⟨rfl, rfl⟩

/-- C3 amended: the dispatch prefix of runTask pops the front of the
pending queue and (re)binds the indexed slot whenever a task is pending,
regardless of whether that slot is currently bound - so a repeated
startExecution call with pending work re-dispatches from bound slots
too, and can exceed totalWorkers concurrent executions; only when the
pending queue is empty is a repeated startExecution call harmless: with
any slot still bound it changes nothing. -/
theorem c3_rerun_amended :
    (∀ (s : QState) (i : Nat) (q : QueuedTask) (rest : List QueuedTask),
      s.tasks = q :: rest →
      runTaskSync s i = { s with
        tasks := rest,
        workers := s.workers.set i (some { q with attempts := q.attempts + 1 }),
        flights := s.flights ++ [⟨i, { q with attempts := q.attempts + 1 }, !s.aborted, none⟩],
        startLog := s.startLog ++ [q.tid] }) ∧
    (∀ (s : QState), s.tasks = [] → allWorkersIdle s = false → startExecution s = s) := by
  constructor
  · intro s i q rest h
    unfold runTaskSync
    rw [h]
  · intro s ht hw
    unfold startExecution
    rw [foldl_runTaskSync_empty_busy _ s ht hw, if_neg]
    simp [hw]

/-- C3 witness for c3_rerun_amended: the second startExecution call on a
1-worker queue whose only slot is bound pops the pending task (first
conjunct applied to the bound state), and with nothing pending it is a
no-op (second conjunct). -/
theorem c3_rerun_amended_witness :
    (runTaskSync (startExecution (TaskQueue.init
      { totalWorkers := some (1 : ℚ), tasks := some [succTask, succTask] })) 0).startLog = [0, 1] ∧
    startExecution (runTaskSync (startExecution (TaskQueue.init
      { totalWorkers := some (1 : ℚ), tasks := some [succTask, succTask] })) 0) =
      runTaskSync (startExecution (TaskQueue.init
        { totalWorkers := some (1 : ℚ), tasks := some [succTask, succTask] })) 0 := by
  constructor
  · rw [c3_rerun_amended.1 (startExecution (TaskQueue.init
      { totalWorkers := some (1 : ℚ), tasks := some [succTask, succTask] })) 0
      ⟨1, succTask, 0, []⟩ [] rfl]
    rfl
  · exact c3_rerun_amended.2 (runTaskSync (startExecution (TaskQueue.init
      { totalWorkers := some (1 : ℚ), tasks := some [succTask, succTask] })) 0) rfl rfl

/-! Claim C4: no new dispatch after stop(). -/

/-- C4 fails on the code: the success and failure paths of runTask call
runTask(index) again unconditionally, without consulting the abort
signal, so after stop() is raised inside the completed-event dispatch
the slot still pops the second pending task and begins executing it
(startLog [0, 1], a new unsettled flight while aborted = true).  The
flight is unarmed - TaskRunner registered its abort listener on an
already aborted signal, and such a listener never fires - so even a
second stop() cannot settle it: the dispatched task can no longer be
aborted at all.  This contradicts the stop() documentation ("Stops the
queue after the currently running tasks complete") and the draft
variant of the scheduler in the repository, which guards exactly this
re-dispatch with its continueRunning flag. -/
theorem c4_stop_dispatch_bug :
    c4Trace.aborted = true ∧ c4Trace.startLog = [0, 1] ∧
    c4Trace.flights.map (fun f => (f.worker, f.armed, f.settled.isNone)) = [(0, false, true)] ∧
    (stop c4Trace).flights.map (fun f => f.settled.isNone) = [true] := by
  exact ⟨rfl, rfl, rfl, rfl⟩

/-! Claim C5: cancelled executions are accounting-neutral. -/

/-- C5: the aborted branch of the runTask continuation records no
failure, touches neither history nor any counter nor the pending queue,
frees the slot, erases the flight, and at most dispatches the drained
notification when the freed table is fully idle.  The listener effect
act is irrelevant because the branch dispatches no task event. -/
theorem c5_cancelled_frame (s : QState) (j : Nat) (f : Flight) (act : QState → QState)
    (hf : s.flights[j]? = some f) (hab : f.settled = some RunnerResult.aborted) :
    (runCont s j act).tasks = s.tasks ∧
    (runCont s j act).completeTasks = s.completeTasks ∧
    (runCont s j act).failedTasks = s.failedTasks ∧
    (runCont s j act).totalUniqueTasksAdded = s.totalUniqueTasksAdded ∧
    (runCont s j act).startLog = s.startLog ∧
    (runCont s j act).workers = s.workers.set f.worker none ∧
    (runCont s j act).flights = s.flights.eraseIdx j ∧
    ((runCont s j act).events = s.events ∨
      (runCont s j act).events = s.events ++ [EmittedEvent.allWorkersIdle
        s.completeTasks.length s.failedTasks.length s.totalUniqueTasksAdded]) := by
  simp only [runCont, hf, hab, setWorkerFinished]
  split
  · exact ⟨rfl, rfl, rfl, rfl, rfl, rfl, rfl, Or.inr rfl⟩
  · exact ⟨rfl, rfl, rfl, rfl, rfl, rfl, rfl, Or.inl rfl⟩

/-- C5 witness for c5_cancelled_frame at c5WitState. -/
theorem c5_cancelled_frame_witness :
    (runCont c5WitState 0 (fun t => t)).failedTasks = c5WitState.failedTasks ∧
    (runCont c5WitState 0 (fun t => t)).completeTasks = c5WitState.completeTasks ∧
    (runCont c5WitState 0 (fun t => t)).tasks = c5WitState.tasks := by
  have h := c5_cancelled_frame c5WitState 0
    ⟨0, ⟨0, succTask, 1, []⟩, true, some RunnerResult.aborted⟩ (fun t => t) rfl rfl
  exact ⟨h.2.2.1, h.2.1, h.1⟩

/-! Claim C6: FIFO dispatch and retry re-append. -/

/-- C6: admission appends a fresh record to the back of the pending
queue; the dispatch prefix of runTask pops the front (Array.shift) and
starts exactly that task; and the failure continuation of an attempt
with retry budget left re-appends the failed record behind every task
pending at that moment (the retry push happens before the tail call
pops the front for this slot's next dispatch). -/
theorem c6_fifo_order :
    (∀ (s : QState) (t : TaskType),
      (addTask s t).tasks = s.tasks ++ [⟨s.nextTid, t, 0, []⟩]) ∧
    (∀ (s : QState) (i : Nat) (q : QueuedTask) (rest : List QueuedTask),
      s.tasks = q :: rest →
      (runTaskSync s i).tasks = rest ∧ (runTaskSync s i).startLog = s.startLog ++ [q.tid]) ∧
    (∀ (s : QState) (j : Nat) (f : Flight) (e : ErrVal) (p : QueuedTask)
      (rest : List QueuedTask),
      s.flights[j]? = some f → f.settled = some (RunnerResult.err e) →
      s.retries ≠ 0 → f.qt.attempts ≤ s.retries → s.tasks = p :: rest →
      (runCont s j (fun t => t)).tasks =
        rest ++ [{ f.qt with failures := f.qt.failures ++ [e] }] ∧
      (runCont s j (fun t => t)).startLog = s.startLog ++ [p.tid]) := by
  refine ⟨fun s t => rfl, fun s i q rest h => ?_, fun s j f e p rest hf hs hr ha ht => ?_⟩
  · unfold runTaskSync
    rw [h]
    exact ⟨rfl, rfl⟩
  · simp only [runCont, hf, hs, dispatchEvent]
    split
    · simp only [runTaskSync, setWorkerFinished, ht, List.cons_append]
      exact ⟨by trivial, by trivial⟩
    · next hcond => exact absurd ⟨hr, ha⟩ hcond

/-- C6 witness for c6_fifo_order: admission appends, dispatch pops the
pending head, and the retried record lands behind it. -/
theorem c6_fifo_order_witness :
    (addTask (TaskQueue.init { totalWorkers := some (1 : ℚ) }) succTask).tasks =
      [⟨0, succTask, 0, []⟩] ∧
    (runTaskSync (TaskQueue.init
      { totalWorkers := some (1 : ℚ), tasks := some [succTask, failTask] }) 0).startLog = [0] ∧
    (runCont c6WitState 0 (fun t => t)).tasks = [⟨0, failTask, 1, [0]⟩] ∧
    (runCont c6WitState 0 (fun t => t)).startLog = [0, 1] := by
  have h1 := c6_fifo_order.1 (TaskQueue.init { totalWorkers := some (1 : ℚ) }) succTask
  have h2 := (c6_fifo_order.2.1 (TaskQueue.init
    { totalWorkers := some (1 : ℚ), tasks := some [succTask, failTask] }) 0
    ⟨0, succTask, 0, []⟩ [⟨1, failTask, 0, []⟩] rfl).2
  have h3 := c6_fifo_order.2.2 c6WitState 0
    ⟨0, ⟨0, failTask, 1, []⟩, true, some (RunnerResult.err 0)⟩ 0
    ⟨1, succTask, 0, []⟩ [] rfl rfl (by decide) (by decide) rfl
  refine ⟨by rw [h1]; rfl, by rw [h2]; rfl, by rw [h3.1]; rfl, by rw [h3.2]; rfl⟩

/-! Claim C7: clearQueue. -/

/-- C7: clearQueue fails with the busy error whenever any worker slot is
bound (the source throws before mutating anything, so the state is
unchanged), and when every slot is idle it succeeds, resetting the
pending queue, both histories and the unique-task counter to zero while
leaving the workers table, the retry budget and the abort signal
untouched. -/
theorem c7_clear_queue (s : QState) :
    (allWorkersIdle s = false →
      clearQueue s = Except.error "Cannot clear the queue while tasks are running") ∧
    (allWorkersIdle s = true →
      clearQueue s = Except.ok { s with
        tasks := [], totalUniqueTasksAdded := 0,
        completeTasks := [], failedTasks := [] } ∧
      ∀ s2, clearQueue s = Except.ok s2 →
        pendingTasks s2 = 0 ∧ completedTasks s2 = 0 ∧ failedTasksCount s2 = 0 ∧
        totalTasks s2 = 0 ∧ s2.workers = s.workers ∧ s2.retries = s.retries ∧
        s2.aborted = s.aborted ∧ s2.flights = s.flights ∧ s2.events = s.events) := by
  constructor
  · intro hw
    unfold clearQueue
    rw [if_neg (by simp [hw])]
  · intro hw
    have hok : clearQueue s = Except.ok { s with
        tasks := [], totalUniqueTasksAdded := 0,
        completeTasks := [], failedTasks := [] } := by
      unfold clearQueue
      rw [if_pos hw]
    refine ⟨hok, fun s2 h2 => ?_⟩
    rw [hok] at h2
    cases h2
    exact ⟨rfl, rfl, rfl, rfl, rfl, rfl, rfl, rfl, rfl⟩

/-- C7 witness for c7_clear_queue: rejected on a queue with a bound
slot, and resetting a drained queue that has history. -/
theorem c7_clear_queue_witness :
    clearQueue (startExecution (TaskQueue.init
      { totalWorkers := some (1 : ℚ), tasks := some [succTask] })) =
      Except.error "Cannot clear the queue while tasks are running" ∧
    clearQueue (runToIdle (startExecution (TaskQueue.init
      { totalWorkers := some (1 : ℚ), tasks := some [succTask] })) 2) =
      Except.ok { runToIdle (startExecution (TaskQueue.init
          { totalWorkers := some (1 : ℚ), tasks := some [succTask] })) 2 with
        tasks := [], totalUniqueTasksAdded := 0,
        completeTasks := [], failedTasks := [] } := by
  constructor
  · exact (c7_clear_queue (startExecution (TaskQueue.init
      { totalWorkers := some (1 : ℚ), tasks := some [succTask] }))).1 rfl
  · exact ((c7_clear_queue (runToIdle (startExecution (TaskQueue.init
      { totalWorkers := some (1 : ℚ), tasks := some [succTask] })) 2)).2 rfl).1

/-! Claim C8: fail-once-then-succeed metrics and the drained payload. -/

/-- C8: the fail-once-then-succeed task contributes exactly 1 to the
completed count and exactly 1 to the failed-attempt count, the drained
notification of its run carries (1, 1, 1), and in general the payload
of every drained notification is exactly the triple (completed count,
failed-attempt count, totalUniqueTasksAdded) at the instant sendAllDone
runs. -/
theorem c8_retry_then_success :
    completedTasks (runToIdle c8Queue 2) = 1 ∧
    failedTasksCount (runToIdle c8Queue 2) = 1 ∧
    (runToIdle c8Queue 2).flights = [] ∧
    (runToIdle c8Queue 2).events =
      [EmittedEvent.taskError 0, EmittedEvent.taskCompleted,
        EmittedEvent.allWorkersIdle 1 1 1] ∧
    (∀ s : QState, (sendAllDone s).events = s.events ++
      [EmittedEvent.allWorkersIdle (completedTasks s) (failedTasksCount s) (totalTasks s)]) := by
  exact ⟨rfl, rfl, rfl, rfl, fun s => rfl⟩

/-! Claim C9: worker-count normalization at construction. -/

/-- C9 counterexample: the claim says every construction input yields a
positive worker count.  With totalWorkers = 1/2 the constructor keeps
the value (it passes the > 0 check) and Math.trunc coerces it to 0: the
resulting worker count is 0 and zero slots are allocated. -/
theorem c9_worker_count_counterexample :
    (TaskQueue.init { totalWorkers := some (mkRat 1 2) }).totalWorkers = 0 ∧
    (TaskQueue.init { totalWorkers := some (mkRat 1 2) }).workers = [] := by
  exact ⟨rfl, rfl⟩

/-- C9 amended: when totalWorkers is absent or nonpositive the default
30 is silently kept; when totalWorkers ≥ 1 it is coerced to its integer
floor, a positive count; but when 0 < totalWorkers < 1 the coercion
yields 0 and no slot is allocated.  In every case exactly the resulting
count of idle slots is allocated. -/
theorem c9_worker_count_amended (args : TaskQueueConstructorInput) :
    (args.totalWorkers = none → (TaskQueue.init args).totalWorkers = 30) ∧
    (∀ q : ℚ, args.totalWorkers = some q → q ≤ 0 →
      (TaskQueue.init args).totalWorkers = 30) ∧
    (∀ q : ℚ, args.totalWorkers = some q → 1 ≤ q →
      (TaskQueue.init args).totalWorkers = q.floor.toNat ∧
      1 ≤ (TaskQueue.init args).totalWorkers) ∧
    (∀ q : ℚ, args.totalWorkers = some q → 0 < q → q < 1 →
      (TaskQueue.init args).totalWorkers = 0) ∧
    (TaskQueue.init args).workers =
      List.replicate (TaskQueue.init args).totalWorkers none := by
  have hW : ∀ w, (match args.totalWorkers with
      | some q => if 0 < q then (mathTrunc q).toNat else 30
      | none => 30) = w → (TaskQueue.init args).totalWorkers = w := by
    intro w hw
    unfold TaskQueue.init
    rw [addTasks_totalWorkers]
    exact hw
  refine ⟨?_, ?_, ?_, ?_, ?_⟩
  · intro h
    exact hW 30 (by rw [h])
  · intro q h hq
    refine hW 30 ?_
    rw [h]
    simp only [if_neg (not_lt.mpr hq)]
  · intro q h hq
    have h0 : (0 : ℚ) < q := lt_of_lt_of_le one_pos hq
    have heq : (TaskQueue.init args).totalWorkers = q.floor.toNat := by
      refine hW _ ?_
      rw [h]
      simp only [if_pos h0, mathTrunc, if_pos (le_of_lt h0)]
    refine ⟨heq, ?_⟩
    have hfl : (1 : ℤ) ≤ q.floor := Rat.le_floor.mpr (by exact_mod_cast hq)
    rw [heq]
    omega
  · intro q h h0 h1
    have hge : (0 : ℤ) ≤ q.floor := Rat.le_floor.mpr (by exact_mod_cast le_of_lt h0)
    have hlt : ¬ (1 : ℤ) ≤ q.floor := by
      intro hc
      have := Rat.le_floor.mp hc
      rw [Int.cast_one] at this
      exact absurd h1 (not_lt.mpr this)
    refine hW _ ?_
    rw [h]
    simp only [if_pos h0, mathTrunc, if_pos (le_of_lt h0)]
    omega
  · unfold TaskQueue.init
    rw [addTasks_workers, addTasks_totalWorkers]

/-- C9 witness for c9_worker_count_amended at absent, negative, 5/2 and
1/3 inputs. -/
theorem c9_worker_count_amended_witness :
    (TaskQueue.init { totalWorkers := none }).totalWorkers = 30 ∧
    (TaskQueue.init { totalWorkers := some (-3 : ℚ) }).totalWorkers = 30 ∧
    (TaskQueue.init { totalWorkers := some (mkRat 5 2) }).totalWorkers = 2 ∧
    1 ≤ (TaskQueue.init { totalWorkers := some (mkRat 5 2) }).totalWorkers ∧
    (TaskQueue.init { totalWorkers := some (mkRat 1 3) }).totalWorkers = 0 := by
  have h3 := (c9_worker_count_amended
    { totalWorkers := some (mkRat 5 2) }).2.2.1 (mkRat 5 2) rfl (by decide)
  refine ⟨(c9_worker_count_amended { totalWorkers := none }).1 rfl,
    (c9_worker_count_amended { totalWorkers := some (-3 : ℚ) }).2.1 (-3) rfl (by decide),
    by rw [h3.1]; decide, h3.2,
    (c9_worker_count_amended
      { totalWorkers := some (mkRat 1 3) }).2.2.2.1 (mkRat 1 3) rfl (by decide) (by decide)⟩

/-! Claim C10: runTaskQueue does not forward retries. -/

/-- C10: the queue constructed by the run-to-completion helper always
has retry budget 0 - the helper passes totalWorkers and tasks but not
retries - so even when the caller supplies retries = R > 0, an
always-failing task run through the helper is started exactly once,
records exactly one failed attempt, and is never re-enqueued. -/
theorem c10_retries_not_forwarded (args : TaskQueueConstructorInput) (R : Nat)
    (_hR : args.retries = some R) (_hpos : 0 < R) :
    (runTaskQueueInit args).retries = 0 ∧
    (runToIdle (startExecution (runTaskQueueInit
      { totalWorkers := some (1 : ℚ), tasks := some [failTask], retries := some R })) 1).startLog
      = [0] ∧
    failedTasksCount (runToIdle (startExecution (runTaskQueueInit
      { totalWorkers := some (1 : ℚ), tasks := some [failTask], retries := some R })) 1) = 1 ∧
    (runToIdle (startExecution (runTaskQueueInit
      { totalWorkers := some (1 : ℚ), tasks := some [failTask], retries := some R })) 1).tasks
      = [] ∧
    (runToIdle (startExecution (runTaskQueueInit
      { totalWorkers := some (1 : ℚ), tasks := some [failTask], retries := some R })) 1).flights
      = [] := by
  refine ⟨?_, rfl, rfl, rfl, rfl⟩
  unfold runTaskQueueInit TaskQueue.init
  rw [addTasks_retries]
  rfl

/-- C10 witness for c10_retries_not_forwarded at retries = 5. -/
theorem c10_retries_not_forwarded_witness :
    (runTaskQueueInit { retries := some 5 }).retries = 0 ∧
    (runToIdle (startExecution (runTaskQueueInit
      { totalWorkers := some (1 : ℚ), tasks := some [failTask], retries := some 5 })) 1).startLog
      = [0] := by
  have h := c10_retries_not_forwarded { retries := some 5 } 5 rfl (by decide)
  exact ⟨h.1, h.2.1⟩

end TaskQueueSpec
